import Mathlib

/-!
Verification of the text-to-image-demo services against their
natural-language specification.  Each Python function relevant to the
claims is shallowly embedded as an executable Lean definition, translated
from the source; theorems about those definitions settle the claims.
-/

set_option maxRecDepth 4096

/-- Decidable equality for `Except`, so that concrete runs of the fallible
    operations can be checked by `decide`. -/
instance {ε α : Type} [DecidableEq ε] [DecidableEq α] :
    DecidableEq (Except ε α) := fun x y =>
  match x, y with
  | .ok a, .ok b =>
    if h : a = b then .isTrue (by rw [h]) else .isFalse (by simp [h])
  | .error a, .error b =>
    if h : a = b then .isTrue (by rw [h]) else .isFalse (by simp [h])
  | .ok _, .error _ => .isFalse (by simp)
  | .error _, .ok _ => .isFalse (by simp)

/-! ### Shared string helpers (Python `str` operations, ASCII fragment) -/

/-- Bool test that `needle` occurs as a contiguous sublist of `hay`
    (Python `needle in hay` for strings, on the character lists). -/
def listContainsSub (hay needle : List Char) : Bool :=
  (List.range (hay.length + 1)).any fun i => needle.isPrefixOf (hay.drop i)

/-- Python `needle in hay` on strings. -/
def strContainsSub (hay needle : String) : Bool :=
  listContainsSub hay.data needle.data

/-- Python `str.lower()` (ASCII fragment), as a map over the characters. -/
def pyLower (s : String) : String :=
  ⟨s.data.map Char.toLower⟩

/-- Python `str.split()` word count: split on whitespace runs, drop empties,
    count the words.  Used for the usage token counts. -/
def wordCount (s : String) : Nat :=
  ((s.split Char.isWhitespace).filter (fun w => w ≠ "")).length

/-! ### C9 — `format_file_size` (src/mcp-server/src/utils/images.py)

The Python loop divides a float by 1024 until it drops below 1024 or the
unit index reaches GB.  Division of a binary float by 1024 is exact, so the
running value is modelled exactly by a rational number. -/

/-- Unit table `units = ["B", "KB", "MB", "GB"]` from the source. -/
def fileSizeUnits : List String := ["B", "KB", "MB", "GB"]

/-- Embedding of the `while size >= 1024 and unit_index < len(units) - 1`
    loop: repeatedly divide by 1024 and bump the unit index. -/
def sizeLoop (size : ℚ) (idx : Nat) : ℚ × Nat :=
  if h : 1024 ≤ size ∧ idx < 3 then
    sizeLoop (size / 1024) (idx + 1)
  else
    (size, idx)
termination_by 3 - idx
decreasing_by omega

/-- Round-half-even of a rational to an integer, the rounding used by
    Python float formatting (the float being formatted is exactly the
    rational by the exactness argument above). -/
def roundHalfEven (q : ℚ) : ℤ :=
  if q - q.floor = 1 / 2 then
    (if q.floor % 2 = 0 then q.floor else q.floor + 1)
  else
    (q + 1 / 2).floor

/-- Python `f"{x:.1f}"` for a nonnegative value: one digit after the
    decimal point, round-half-even. -/
def pyFormat1f (q : ℚ) : String :=
  let n := roundHalfEven (q * 10)
  toString (n / 10) ++ "." ++ toString (n % 10)

/-- Embedding of `format_file_size(size_bytes)`. -/
def format_file_size (size_bytes : Nat) : String :=
  if size_bytes = 0 then "0 B"
  else
    let p := sizeLoop (size_bytes : ℚ) 0
    if p.2 = 0 then
      toString p.1.floor ++ " " ++ fileSizeUnits.getD p.2 ""
    else
      pyFormat1f p.1 ++ " " ++ fileSizeUnits.getD p.2 ""

/-! ### C5 — `DtypeSelector` (src/diffusers-runtime/dtype_selector.py)

The hardware probe (`check_bfloat16_support`) and the model-config lookup
(`get_model_native_dtype`) are environment reads; they enter the embedding
as the parameters `bf16Support` and `modelNative`. -/

/-- Torch dtypes the selector can produce. -/
inductive TorchDtype
  | bfloat16
  | float16
  | float32
deriving DecidableEq

/-- Embedding of `DtypeSelector._intelligent_dtype_selection`. -/
def intelligentDtypeSelection (bf16Support : Bool) (modelNative : TorchDtype)
    (deviceType : String) : TorchDtype :=
  if deviceType = "cuda" then
    if bf16Support then .bfloat16
    else if modelNative ≠ .float32 then modelNative
    else .float16
  else if deviceType = "mps" then
    -- both branches of the source return float32 on mps
    if modelNative = .float32 then .float32 else .float32
  else
    modelNative

/-- Embedding of `DtypeSelector._get_dtype_with_fallback`. -/
def getDtypeWithFallback (bf16Support : Bool) (modelNative : TorchDtype)
    (target : TorchDtype) (deviceType : String) : TorchDtype :=
  if target = .bfloat16 then
    if deviceType = "cuda" ∧ bf16Support then .bfloat16
    else if modelNative ≠ .float32 ∧ deviceType = "cuda" then modelNative
    else if deviceType = "cuda" then .float16
    else .float32
  else if target = .float16 then
    if deviceType = "cuda" then .float16
    else modelNative
  else
    target

/-- Embedding of `DtypeSelector.determine_torch_dtype`; `dtypeEnvRaw` is the
    raw `DTYPE` environment value (the source lowercases it). -/
def determineTorchDtype (bf16Support : Bool) (modelNative : TorchDtype)
    (dtypeEnvRaw : String) (deviceType : String) : TorchDtype :=
  let dtypeEnv := pyLower dtypeEnvRaw
  if dtypeEnv = "float32" then .float32
  else if dtypeEnv = "float16" then
    getDtypeWithFallback bf16Support modelNative .float16 deviceType
  else if dtypeEnv = "bfloat16" then
    getDtypeWithFallback bf16Support modelNative .bfloat16 deviceType
  else if dtypeEnv = "native" then modelNative
  else intelligentDtypeSelection bf16Support modelNative deviceType

/-! ### C4 — `generate_image` parameter validation
(src/mcp-server/src/api/mcp_server.py)

A tool call first constructs `GenerateImageParams` through pydantic, which
enforces the `Field` bounds; only a field-valid object reaches
`MCPImageServer._validate_parameters`.  Both stages are embedded. -/

/-- Embedding of the `GenerateImageParams` pydantic model, with the
    source defaults. -/
structure GenerateImageParams where
  prompt : String
  negative_prompt : Option String := none
  width : Int := 512
  height : Int := 512
  num_inference_steps : Int := 50
  guidance_scale : ℚ := mkRat 15 2
  seed : Option Int := none
deriving DecidableEq

/-- Pydantic `Field` bounds of `GenerateImageParams`: prompt min/max length,
    64-2048 dimensions, 1-200 steps, 1-20 guidance; `seed` is unconstrained
    at this stage. -/
def fieldConstraintsOk (p : GenerateImageParams) : Bool :=
  1 ≤ p.prompt.length && p.prompt.length ≤ 1000 &&
  (match p.negative_prompt with
   | some s => s.length ≤ 1000
   | none => true) &&
  64 ≤ p.width && p.width ≤ 2048 &&
  64 ≤ p.height && p.height ≤ 2048 &&
  1 ≤ p.num_inference_steps && p.num_inference_steps ≤ 200 &&
  1 ≤ p.guidance_scale && p.guidance_scale ≤ 20

/-- Ways a generate-image request can be rejected: `fieldConstraint` is the
    pydantic stage; the rest are the branches of `_validate_parameters`. -/
inductive ParamReject
  | fieldConstraint
  | emptyPrompt
  | dimensionsTooLarge
  | guidanceTooSmall
  | seedOutOfRange
deriving DecidableEq

/-- Embedding of `MCPImageServer._validate_parameters`.  Python
    `not prompt.strip()` holds exactly when every character is whitespace. -/
def validate_parameters (p : GenerateImageParams) : Except ParamReject Unit :=
  if p.prompt.data.all Char.isWhitespace then .error .emptyPrompt
  else if 4194304 < p.width * p.height then .error .dimensionsTooLarge
  else if p.guidance_scale < 1 then .error .guidanceTooSmall
  else
    match p.seed with
    | some s => if s < 0 ∨ 2 ^ 32 - 1 < s then .error .seedOutOfRange else .ok ()
    | none => .ok ()

/-- Full validation pipeline a tool call goes through: pydantic field
    bounds, then `_validate_parameters`. -/
def validateGenerateImageRequest (p : GenerateImageParams) : Except ParamReject Unit :=
  if fieldConstraintsOk p then validate_parameters p else .error .fieldConstraint

/-! ### C6 / C10 — `MCPService._sanitize_arguments`
(src/chatbot/backend/app/services/mcp_service.py)

Argument values are strings, JSON collections (dict/list, abstracted to
whether `json.dumps` succeeds on them), or other primitives that pass
through untouched. -/

/-- Security constants from the source. -/
def MAX_ARG_KEY_LENGTH : Nat := 100

/-- Maximum retained length of a string argument value. -/
def MAX_STRING_ARG_LENGTH : Nat := 10000

/-- Model of a tool-argument value. -/
inductive ArgValue
  | str (s : String)
  | coll (serializable : Bool)
  | prim
deriving DecidableEq

/-- Validation failures of `_sanitize_arguments`; every one is raised as an
    `MCPValidationError` in the source. -/
inductive SanitizeReject
  | keyTooLong (k : String)
  | keyInvalid (k : String)
  | nonSerializable (k : String)
deriving DecidableEq

/-- Python `(nonempty and all alphanumeric)`, the meaning of `str.isalnum`
    (ASCII fragment). -/
def pyIsAlnum (l : List Char) : Bool :=
  !l.isEmpty && l.all Char.isAlphanum

/-- Embedding of the key check
    `key.replace('_', '').replace('-', '').replace('.', '').isalnum()`. -/
def validArgKey (k : String) : Bool :=
  pyIsAlnum (k.data.filter (fun c => !(c == '_') && !(c == '-') && !(c == '.')))

/-- Characters kept by the control-character filter:
    `ord(char) >= 32 or char in '\n\r\t'`. -/
def keepChar (c : Char) : Bool :=
  decide (32 ≤ c.toNat) || c == '\n' || c == '\r' || c == '\t'

/-- String-value sanitization: truncate to `MAX_STRING_ARG_LENGTH`, then
    drop control characters. -/
def sanitizeString (s : String) : String :=
  let t : String := ⟨s.data.take MAX_STRING_ARG_LENGTH⟩
  ⟨t.data.filter keepChar⟩

/-- Per-value sanitization step of `_sanitize_arguments`. -/
def sanitizeValue (k : String) (v : ArgValue) : Except SanitizeReject ArgValue :=
  match v with
  | .str s => .ok (.str (sanitizeString s))
  | .coll ser => if ser then .ok (.coll ser) else .error (.nonSerializable k)
  | .prim => .ok .prim

/-- Embedding of `MCPService._sanitize_arguments` over the ordered item
    list of the argument dict; the first failing item aborts with an
    `MCPValidationError`. -/
def sanitize_arguments : List (String × ArgValue) → Except SanitizeReject (List (String × ArgValue))
  | [] => .ok []
  | (k, v) :: rest =>
    if MAX_ARG_KEY_LENGTH < k.length then .error (.keyTooLong k)
    else if !validArgKey k then .error (.keyInvalid k)
    else
      match sanitizeValue k v with
      | .error e => .error e
      | .ok v2 =>
        match sanitize_arguments rest with
        | .error e => .error e
        | .ok r => .ok ((k, v2) :: r)

/-- Clean value: unchanged by sanitization (string short enough and free of
    control characters; serializable collection; primitive). -/
def cleanValue : ArgValue → Bool
  | .str s => s.length ≤ MAX_STRING_ARG_LENGTH && s.data.all keepChar
  | .coll ser => ser
  | .prim => true

/-- Clean argument map: all keys valid and all values clean. -/
def cleanArgs (l : List (String × ArgValue)) : Bool :=
  l.all fun p => p.1.length ≤ MAX_ARG_KEY_LENGTH && validArgKey p.1 && cleanValue p.2

/-! ### C2 — `MCPService.call_tool` retry loop
(src/chatbot/backend/app/services/mcp_service.py)

The underlying executor (the FastMCP `client.call_tool` wrapped in
`asyncio.wait_for`) is a parameter mapping the attempt number to its
outcome.  Sleeps are recorded as a list of delays in seconds. -/

/-- Retry constants from the source. -/
def MAX_RETRIES : Nat := 3

/-- Flat retry delay in seconds. -/
def RETRY_DELAY_SECONDS : ℚ := 1

/-- Failure kinds the executor can raise: `MCPValidationError`,
    `MCPToolNotFoundError`, or any other exception (with its message). -/
inductive ToolFailKind
  | validation
  | notFound
  | other
deriving DecidableEq

/-- Outcome of one execution attempt. -/
inductive AttemptOutcome
  | success (v : String)
  | timeout
  | failure (kind : ToolFailKind) (msg : String)
deriving DecidableEq

/-- Result of `call_tool`: the returned value or the raised error. -/
inductive ToolCallResult
  | ok (v : String)
  | timeoutError
  | validationError
  | notFoundError
  | connectionError (lastMsg : String)
  | executionError (lastMsg : String)
deriving DecidableEq

/-- Connection-flavoured failure test:
    `"connection" in str(e).lower() or "network" in str(e).lower()`. -/
def isConnectionMsg (msg : String) : Bool :=
  strContainsSub (pyLower msg) "connection" || strContainsSub (pyLower msg) "network"

/-- Embedding of the body of the `for attempt in range(MAX_RETRIES)` loop
    of `call_tool`, from iteration `attempt` on.  Returns the result and
    the list of sleep delays performed. -/
def callToolFrom (exec : Nat → AttemptOutcome) (attempt : Nat) :
    ToolCallResult × List ℚ :=
  match exec attempt with
  | .success v => (.ok v, [])
  | .timeout => (.timeoutError, [])
  | .failure .validation _ => (.validationError, [])
  | .failure .notFound _ => (.notFoundError, [])
  | .failure .other msg =>
    if hc : isConnectionMsg msg then
      if h : attempt < MAX_RETRIES - 1 then
        let r := callToolFrom exec (attempt + 1)
        (r.1, RETRY_DELAY_SECONDS * ((attempt : ℚ) + 1) :: r.2)
      else
        (.connectionError msg, [])
    else
      if h : attempt < MAX_RETRIES - 1 then
        let r := callToolFrom exec (attempt + 1)
        (r.1, RETRY_DELAY_SECONDS :: r.2)
      else
        -- the loop ends and `MCPToolExecutionError(name, last_error)` is raised
        (.executionError msg, [])
termination_by MAX_RETRIES - 1 - attempt
decreasing_by
  all_goals
    have h3 : MAX_RETRIES = 3 := rfl
    rw [h3] at h
    omega

/-- Embedding of the retry portion of `MCPService.call_tool`. -/
def call_tool (exec : Nat → AttemptOutcome) : ToolCallResult × List ℚ :=
  callToolFrom exec 0

/-- Example executor that fails twice with a generic error, then succeeds. -/
def egFlakyExec : Nat → AttemptOutcome :=
  fun n => if n < 2 then .failure .other "boom" else .success "done"

/-! ### C3 — `KServeClient._make_request_with_retry`
(src/mcp-server/src/kserve/client.py)

Attempt outcomes of `self.client.request` are a parameter mapping the
attempt number to a response (status, optionally-parseable error body,
raw text) or a raised `httpx` exception. -/

/-- Parsed `{error, code, details}` error body (`KServeErrorResponse`). -/
structure KServeErrorResponse where
  error : String
  code : Option String := none
  details : Option String := none
deriving DecidableEq

/-- Outcome of one `self.client.request` call. -/
inductive HttpAttempt
  | response (status : Nat) (body : Option KServeErrorResponse) (text : String)
  | connectError (msg : String)
  | timeoutErr (msg : String)
  | otherError (msg : String)
deriving DecidableEq

/-- Result of `_make_request_with_retry`: the returned response status or
    the raised `KServeError` subclass. -/
inductive KResult
  | ok (status : Nat)
  | modelNotReady
  | rateLimit
  | inferenceStructured (e : KServeErrorResponse)
  | inferenceRaw (status : Nat) (text : String)
  | connErr (msg : String)
  | timedOut (msg : String)
  | unexpectedErr (msg : String)
  | exhaustedNoError
deriving DecidableEq

/-- What the inner `try` block raises for a status of at least 400 that is
    neither 404 nor 429: the structured inference error when the body
    parses, a parse failure otherwise.  Every path of the block raises. -/
inductive ErrorBodyRaise
  | structured (e : KServeErrorResponse)
  | parseFailure
deriving DecidableEq

/-- Outcome of the inner `try` block around error-body parsing. -/
def errorBodyTryBlock (body : Option KServeErrorResponse) : ErrorBodyRaise :=
  match body with
  | some e => .structured e
  | none => .parseFailure

/-- The error actually raised for such a status.  The structured
    `KServeInferenceError` is raised inside the `try`, so the blanket
    `except Exception` of the same statement intercepts it — like the
    parse failure — and raises the raw-status error in its place. -/
def statusErrorResult (status : Nat) (text : String)
    (body : Option KServeErrorResponse) : KResult :=
  match errorBodyTryBlock body with
  | _ => .inferenceRaw status text

/-- One iteration of the attempt loop classified: return or non-retriable
    raise (`done`), retriable failure recorded in `last_exception`
    (`retryWith`), or an unexpected sub-400 status that matches no branch
    and falls through (`fallthrough`). -/
inductive AttemptStep
  | done (r : KResult)
  | retryWith (e : KResult)
  | fallthrough
deriving DecidableEq

/-- Classification of one attempt of `_make_request_with_retry`. -/
def stepOfAttempt (expected : Nat) (a : HttpAttempt) : AttemptStep :=
  match a with
  | .response status body text =>
    if status = expected then .done (.ok status)
    else if status = 404 then .done .modelNotReady
    else if status = 429 then .done .rateLimit
    else if 400 ≤ status then .done (statusErrorResult status text body)
    else .fallthrough
  | .connectError msg => .retryWith (.connErr msg)
  | .timeoutErr msg => .retryWith (.timedOut msg)
  | .otherError msg => .retryWith (.unexpectedErr msg)

/-- Final raise after the loop: the last recorded exception, or the
    generic `KServeError` when none was recorded. -/
def finalRaise : Option KResult → KResult
  | some e => e
  | none => .exhaustedNoError

/-- Retry configuration fields of `KServeClient`, with the constructor
    defaults. -/
structure RetryConfig where
  maxRetries : Nat := 3
  backoffFactor : ℚ := 2
  maxRetryDelay : ℚ := 60
deriving DecidableEq

/-- Embedding of the `for attempt in range(self.max_retries + 1)` loop of
    `_make_request_with_retry`, from iteration `attempt` with recorded
    `last_exception`.  Returns the result and the list of sleep delays. -/
def makeRequestFrom (cfg : RetryConfig) (expected : Nat)
    (attempts : Nat → HttpAttempt) (lastExc : Option KResult) (attempt : Nat) :
    KResult × List ℚ :=
  match stepOfAttempt expected (attempts attempt) with
  | .done r => (r, [])
  | .retryWith e =>
    if h : attempt < cfg.maxRetries then
      let d := min (cfg.backoffFactor ^ attempt) cfg.maxRetryDelay
      let r := makeRequestFrom cfg expected attempts (some e) (attempt + 1)
      (r.1, d :: r.2)
    else
      (finalRaise (some e), [])
  | .fallthrough =>
    if h : attempt < cfg.maxRetries then
      let d := min (cfg.backoffFactor ^ attempt) cfg.maxRetryDelay
      let r := makeRequestFrom cfg expected attempts lastExc (attempt + 1)
      (r.1, d :: r.2)
    else
      (finalRaise lastExc, [])
termination_by cfg.maxRetries - attempt
decreasing_by all_goals omega

/-- Embedding of `_make_request_with_retry`. -/
def make_request_with_retry (cfg : RetryConfig) (expected : Nat)
    (attempts : Nat → HttpAttempt) : KResult × List ℚ :=
  makeRequestFrom cfg expected attempts none 0

/-! ### C7 — `handle_non_streaming_chat`
(src/chatbot/backend/app/api/routes/v1/chat/router.py)

The LiteLLM provider state is a parameter: unavailable (echo mode),
completing with a text, or failing with an error message.  Message id and
timestamp are wall-clock reads and are left out of the model. -/

/-- Provider behaviour seen by the handler. -/
inductive LlmBehavior
  | unavailable
  | completes (text : String)
  | fails (err : String)

/-- Fixed notice appended in echo mode (Python adjacent string literals
    concatenated). -/
def llmNotice : String :=
  "Note: LLM service is not available. No API key has been provided. " ++
  "Please set the ANTHROPIC_API_KEY environment variable to enable LLM."

/-- Echo-mode response text. -/
def echoResponseText (message : String) : String :=
  "Echo: " ++ message ++ "\n\n" ++ llmNotice

/-- Usage statistics dict of the response. -/
structure UsageStats where
  prompt_tokens : Nat
  completion_tokens : Nat
  total_tokens : Nat
deriving DecidableEq

/-- The `ChatMessage` fields the claims are about. -/
structure ChatMessageM where
  text : String
  sender : String
deriving DecidableEq

/-- The `ChatCompletionResponse` fields the claims are about. -/
structure ChatCompletionResponseM where
  message : ChatMessageM
  usage : UsageStats
deriving DecidableEq

/-- Embedding of `handle_non_streaming_chat`: HTTP status and response
    body.  None of the modelled paths raises, so the handler returns its
    response and FastAPI serves it with status 200. -/
def handle_non_streaming_chat (behavior : LlmBehavior) (message : String) :
    Nat × ChatCompletionResponseM :=
  let responseText :=
    match behavior with
    | .unavailable => echoResponseText message
    | .completes t => t
    | .fails e => "Echo: " ++ message ++ "\n\n" ++
        "Note: LLM encountered an error: " ++ e
  (200,
   { message := { text := responseText, sender := "bot" },
     usage :=
      { prompt_tokens := wordCount message,
        completion_tokens := wordCount responseText,
        total_tokens := wordCount message + wordCount responseText } })

/-! ### C8 — `generate_streaming_response`
(src/chatbot/backend/app/api/routes/v1/chat/router.py)

A run of the generator either completes (its stream of content events is
followed by the single completion event) or its body raises before some
yield — necessarily before the final `done` yield, which is the last
statement of the `try` — in which case the outer handler emits exactly one
`error` event and the generator ends. -/

/-- An SSE event: its `type` field and its payload (content chunk, error
    text, or completion timestamp). -/
structure SSEEvent where
  type : String
  payload : String
deriving DecidableEq

/-- Content event constructor. -/
def contentEvent (s : String) : SSEEvent := { type := "content", payload := s }

/-- Completion event constructor (payload is the wall-clock timestamp,
    irrelevant to the claims). -/
def doneEvent : SSEEvent := { type := "done", payload := "" }

/-- Error event constructor. -/
def errorEvent (e : String) : SSEEvent := { type := "error", payload := e }

/-- What the underlying completion does: echo mode (message streamed
    character by character), a successful LiteLLM stream of chunks, or a
    LiteLLM stream that raises after some chunks (the inner handler then
    streams an error text character by character as `content` events). -/
inductive StreamBody
  | echoMode (message : String)
  | llmStream (chunks : List String)
  | llmStreamFails (chunks : List String) (err : String)

/-- Content events the `try` body yields before the completion event. -/
def bodyContentEvents : StreamBody → List SSEEvent
  | .echoMode m =>
    (echoResponseText m).data.map (fun c => contentEvent (String.mk [c]))
  | .llmStream chunks => chunks.map contentEvent
  | .llmStreamFails chunks err =>
    chunks.map contentEvent ++
      ("\n\nError: LLM encountered an error: " ++ err).data.map
        (fun c => contentEvent (String.mk [c]))

/-- A run of the generator: completes, or its body raises before the
    (k+1)-th yield of the `try` block. -/
inductive StreamRun
  | completes (b : StreamBody)
  | failsAt (b : StreamBody) (k : Nat) (err : String)

/-- Embedding of `generate_streaming_response` as the emitted event
    sequence. -/
def generate_streaming_response : StreamRun → List SSEEvent
  | .completes b => bodyContentEvents b ++ [doneEvent]
  | .failsAt b k err => (bodyContentEvents b).take k ++ [errorEvent err]

/-! ### C1 — `FileStorage` (src/mcp-server/src/storage/file.py)

The storage directory only ever holds files named `{id}.png` and
`{id}.json`, so its state is modelled as two association maps keyed by
image id: raw image bytes and parsed metadata.  I/O is assumed to succeed
(the `OSError` wrappers are unreachable in the model); `created_at` is the
injected clock reading. -/

/-- Raw image bytes. -/
abbrev Bytes := List Nat

/-- Metadata written next to an image: the caller-supplied entries plus the
    fields `save_image` adds. -/
structure FullMetadata where
  base : List (String × String)
  image_id : String
  created_at : String
  size : Nat
  format : String
deriving DecidableEq

/-- Storage directory state. -/
structure FSState where
  pngs : List (String × Bytes)
  jsons : List (String × FullMetadata)
deriving DecidableEq

/-- First-match association lookup (file presence and content). -/
def alookup {α : Type} (k : String) : List (String × α) → Option α
  | [] => none
  | (k2, v) :: rest => if k2 = k then some v else alookup k rest

/-- Remove every binding of a key (file deletion). -/
def aerase {α : Type} (k : String) (l : List (String × α)) : List (String × α) :=
  l.filter (fun p => !(p.1 == k))

/-- Write a file: the new content replaces any previous binding. -/
def ainsert {α : Type} (k : String) (v : α) (l : List (String × α)) :
    List (String × α) :=
  (k, v) :: aerase k l

/-- Storage errors of the modelled paths. -/
inductive StorageErrorM
  | emptyImageData (image_id : String)
deriving DecidableEq

/-- Embedding of `FileStorage.save_image`; `now` is the clock reading used
    for `created_at`.  Returns the saved path (relative to the base
    directory) and the new state. -/
def save_image (st : FSState) (image_data : Bytes) (image_id : String)
    (metadata : List (String × String)) (now : String) :
    Except StorageErrorM (String × FSState) :=
  if image_data.isEmpty then .error (.emptyImageData image_id)
  else
    let full : FullMetadata :=
      { base := metadata, image_id := image_id, created_at := now,
        size := image_data.length, format := "png" }
    .ok (image_id ++ ".png",
      { pngs := ainsert image_id image_data st.pngs,
        jsons := ainsert image_id full st.jsons })

/-- Embedding of `FileStorage.get_image`. -/
def get_image (st : FSState) (image_id : String) : Option Bytes :=
  alookup image_id st.pngs

/-- Embedding of `FileStorage.delete_image`: removes both files, returns
    whether either existed, and the new state. -/
def delete_image (st : FSState) (image_id : String) : Bool × FSState :=
  ((alookup image_id st.pngs).isSome || (alookup image_id st.jsons).isSome,
   { pngs := aerase image_id st.pngs, jsons := aerase image_id st.jsons })

/-- A record returned by `list_images`: the stored metadata updated with
    the path and the on-disk size (`modified_at`, a wall-clock read, is
    left out). -/
structure ListRecord where
  meta : FullMetadata
  path : String
  actual_size : Nat
deriving DecidableEq

/-- One iteration of the `list_images` loop: a metadata file yields a
    record exactly when its image file exists. -/
def listRecordOf (pngs : List (String × Bytes)) (p : String × FullMetadata) :
    Option ListRecord :=
  match alookup p.1 pngs with
  | some data =>
    some { meta := p.2, path := p.1 ++ ".png", actual_size := data.length }
  | none => none

/-- Embedding of `FileStorage.list_images` without a prefix filter: every
    metadata file whose image file exists yields a record. -/
def list_images (st : FSState) : List ListRecord :=
  st.jsons.filterMap (listRecordOf st.pngs)

/-- Metadata files written by `FileStorage` always record their own id;
    states reachable through the storage API satisfy this. -/
def metaConsistent (st : FSState) : Prop :=
  ∀ p ∈ st.jsons, p.2.image_id = p.1

/-! ## Theorems -/

/-- Every event the `try` body of the streaming generator yields before
    the completion event has type `"content"`. -/
theorem bodyContentEvents_type (b : StreamBody) :
    ∀ e ∈ bodyContentEvents b, e.type = "content" := by
  intro e he
  cases b with
  | echoMode m =>
    simp only [bodyContentEvents, List.mem_map] at he
    obtain ⟨c, _, rfl⟩ := he
    rfl
  | llmStream chunks =>
    simp only [bodyContentEvents, List.mem_map] at he
    obtain ⟨c, _, rfl⟩ := he
    rfl
  | llmStreamFails chunks err =>
    simp only [bodyContentEvents, List.mem_append, List.mem_map] at he
    rcases he with ⟨c, _, rfl⟩ | ⟨c, _, rfl⟩ <;> rfl

/-- C8: a successful streaming completion emits exactly one `done` event
    and it is last; a failing one emits an `error` event, the `error`
    event is last, and no `done` event occurs at all (in particular none
    after the `error` event). -/
theorem c8_sse_event_sequence :
    (∀ b,
      ((generate_streaming_response (.completes b)).filter
          (fun e => e.type == "done")).length = 1 ∧
      (generate_streaming_response (.completes b)).getLast? = some doneEvent) ∧
    (∀ b k err,
      errorEvent err ∈ generate_streaming_response (.failsAt b k err) ∧
      (generate_streaming_response (.failsAt b k err)).getLast?
        = some (errorEvent err) ∧
      ((generate_streaming_response (.failsAt b k err)).filter
          (fun e => e.type == "done")).length = 0) := by
  constructor
  · intro b
    have hnil : (bodyContentEvents b).filter (fun e => e.type == "done") = [] := by
      rw [List.filter_eq_nil_iff]
      intro e he
      rw [bodyContentEvents_type b e he]
      decide
    constructor
    · rw [generate_streaming_response, List.filter_append, hnil]
      rfl
    · rw [generate_streaming_response, List.getLast?_concat]
  · intro b k err
    have hnil : ((bodyContentEvents b).take k).filter (fun e => e.type == "done") = [] := by
      rw [List.filter_eq_nil_iff]
      intro e he
      rw [bodyContentEvents_type b e (List.take_subset k _ he)]
      decide
    refine ⟨?_, ?_, ?_⟩
    · rw [generate_streaming_response]
      exact List.mem_append_right _ (List.mem_singleton.mpr rfl)
    · rw [generate_streaming_response, List.getLast?_concat]
    · rw [generate_streaming_response, List.filter_append, hnil]
      rfl

/-- A sanitized string value is clean: short enough and free of control
    characters. -/
theorem sanitizeString_clean (s : String) :
    cleanValue (.str (sanitizeString s)) = true := by
  have hlen : ((s.data.take MAX_STRING_ARG_LENGTH).filter keepChar).length
      ≤ MAX_STRING_ARG_LENGTH := by
    calc ((s.data.take MAX_STRING_ARG_LENGTH).filter keepChar).length
        ≤ (s.data.take MAX_STRING_ARG_LENGTH).length := List.length_filter_le _ _
      _ ≤ MAX_STRING_ARG_LENGTH := by
          rw [List.length_take]
          exact min_le_left _ _
  have hall : ((s.data.take MAX_STRING_ARG_LENGTH).filter keepChar).all keepChar
      = true := by
    rw [List.all_eq_true]
    intro c hc
    exact (List.mem_filter.mp hc).2
  simp only [cleanValue, sanitizeString, Bool.and_eq_true, decide_eq_true_eq]
  exact ⟨hlen, hall⟩

/-- Sanitizing a clean string value leaves it unchanged. -/
theorem sanitizeString_of_clean (s : String)
    (h : cleanValue (.str s) = true) : sanitizeString s = s := by
  simp only [cleanValue, Bool.and_eq_true, decide_eq_true_eq] at h
  obtain ⟨hlen, hall⟩ := h
  have htake : s.data.take MAX_STRING_ARG_LENGTH = s.data :=
    List.take_of_length_le hlen
  have hfilter : s.data.filter keepChar = s.data := by
    rw [List.filter_eq_self]
    intro c hc
    exact (List.all_eq_true.mp hall) c hc
  simp only [sanitizeString, htake, hfilter]

/-- Value sanitization produces clean values. -/
theorem sanitizeValue_clean (k : String) (v v2 : ArgValue)
    (h : sanitizeValue k v = .ok v2) : cleanValue v2 = true := by
  cases v with
  | str s =>
    simp only [sanitizeValue, Except.ok.injEq] at h
    rw [← h]
    exact sanitizeString_clean s
  | coll ser =>
    cases ser with
    | true =>
      simp only [sanitizeValue, if_true, Except.ok.injEq] at h
      rw [← h]
      rfl
    | false => simp [sanitizeValue] at h
  | prim =>
    simp only [sanitizeValue, Except.ok.injEq] at h
    rw [← h]
    rfl

/-- Sanitizing a clean value leaves it unchanged. -/
theorem sanitizeValue_of_clean (k : String) (v : ArgValue)
    (h : cleanValue v = true) : sanitizeValue k v = .ok v := by
  cases v with
  | str s => simp only [sanitizeValue, sanitizeString_of_clean s h]
  | coll ser =>
    cases ser with
    | true => rfl
    | false => simp [cleanValue] at h
  | prim => rfl

/-- Sanitizing a clean argument map returns it unchanged. -/
theorem sanitize_arguments_of_clean :
    ∀ l, cleanArgs l = true → sanitize_arguments l = .ok l := by
  intro l
  induction l with
  | nil => intro _; rfl
  | cons kv rest ih =>
    intro h
    obtain ⟨k, v⟩ := kv
    simp only [cleanArgs, List.all_cons, Bool.and_eq_true, decide_eq_true_eq] at h
    obtain ⟨⟨⟨hlen, hkey⟩, hval⟩, hrest⟩ := h
    have hrest2 : cleanArgs rest = true := by
      simp only [cleanArgs, List.all_eq_true]
      intro p hp
      have := List.all_eq_true.mp hrest p hp
      exact this
    rw [sanitize_arguments, if_neg (by omega), hkey]
    simp only [Bool.not_true, Bool.false_eq_true, if_false]
    rw [sanitizeValue_of_clean k v hval, ih hrest2]

/-- Every map that sanitization accepts is clean. -/
theorem sanitize_arguments_ok_clean :
    ∀ l r, sanitize_arguments l = .ok r → cleanArgs r = true := by
  intro l
  induction l with
  | nil =>
    intro r h
    simp only [sanitize_arguments, Except.ok.injEq] at h
    rw [← h]
    rfl
  | cons kv rest ih =>
    intro r h
    obtain ⟨k, v⟩ := kv
    rw [sanitize_arguments] at h
    split_ifs at h with h1 h2
    cases hv : sanitizeValue k v with
    | error e => rw [hv] at h; cases h
    | ok v2 =>
      rw [hv] at h
      cases hr : sanitize_arguments rest with
      | error e => rw [hr] at h; cases h
      | ok r0 =>
        rw [hr] at h
        injection h with h
        rw [← h]
        have hkey : validArgKey k = true := by
          cases hb : validArgKey k with
          | true => rfl
          | false => exact absurd (by rw [hb]; rfl) h2
        simp only [cleanArgs, List.all_cons, Bool.and_eq_true, decide_eq_true_eq]
        refine ⟨⟨⟨by omega, hkey⟩, sanitizeValue_clean k v v2 hv⟩, ?_⟩
        have := ih r0 hr
        simpa [cleanArgs] using this

/-- Every key of a map that sanitization accepts passes the key check. -/
theorem sanitize_arguments_ok_keys :
    ∀ l r, sanitize_arguments l = .ok r →
      ∀ kv ∈ l, validArgKey kv.1 = true := by
  intro l
  induction l with
  | nil => intro r _ kv hkv; cases hkv
  | cons kv0 rest ih =>
    intro r h kv hkv
    obtain ⟨k, v⟩ := kv0
    rw [sanitize_arguments] at h
    split_ifs at h with h1 h2
    cases hv : sanitizeValue k v with
    | error e => rw [hv] at h; cases h
    | ok v2 =>
      rw [hv] at h
      cases hr : sanitize_arguments rest with
      | error e => rw [hr] at h; cases h
      | ok r0 =>
        rcases List.mem_cons.mp hkv with heq | hmem
        · rw [heq]
          cases hb : validArgKey k with
          | true => rfl
          | false => exact absurd (by rw [hb]; rfl) h2
        · exact ih r0 hr kv hmem

/-- A key without a single alphanumeric character fails the key check,
    whatever mixture of the otherwise-allowed characters it holds. -/
theorem validArgKey_no_alnum (k : String)
    (h : ∀ c ∈ k.data, c.isAlphanum = false) : validArgKey k = false := by
  unfold validArgKey
  cases hl : k.data.filter
      (fun c => !(c == '_') && !(c == '-') && !(c == '.')) with
  | nil => rfl
  | cons c cs =>
    have hcmem : c ∈ k.data.filter
        (fun c => !(c == '_') && !(c == '-') && !(c == '.')) := by
      rw [hl]
      exact List.mem_cons_self c cs
    have hc : c.isAlphanum = false := h c (List.mem_of_mem_filter hcmem)
    simp [pyIsAlnum, hc]

/-- Sanitizing twenty thousand copies of `x` truncates to exactly ten
    thousand of them. -/
theorem sanitizeString_truncates_xs :
    sanitizeString ⟨List.replicate 20000 'x'⟩ = ⟨List.replicate 10000 'x'⟩ := by
  have htake : (List.replicate 20000 'x').take MAX_STRING_ARG_LENGTH
      = List.replicate 10000 'x' := by
    rw [List.take_replicate]
    norm_num [MAX_STRING_ARG_LENGTH]
  have hfilter : (List.replicate 10000 'x').filter keepChar
      = List.replicate 10000 'x' := by
    rw [List.filter_eq_self]
    intro c hc
    rw [List.eq_of_mem_replicate hc]
    decide
  simp only [sanitizeString, htake, hfilter]

/-- C6: sanitizing a single 20,000-character `x` string truncates it to
    exactly 10,000 characters; control characters below code point 32
    other than newline, carriage return and tab are removed; sanitization
    is idempotent on every accepted map, and an already-clean map is
    returned unchanged. -/
theorem c6_sanitize_arguments :
    sanitize_arguments [("key", ArgValue.str ⟨List.replicate 20000 'x'⟩)]
      = .ok [("key", ArgValue.str ⟨List.replicate 10000 'x'⟩)] ∧
    (sanitizeString ⟨List.replicate 20000 'x'⟩).length = 10000 ∧
    sanitize_arguments [("key", ArgValue.str "hello\x00world\x1ftest")]
      = .ok [("key", ArgValue.str "helloworldtest")] ∧
    (∀ a b, sanitize_arguments a = .ok b → sanitize_arguments b = .ok b) ∧
    (∀ a, cleanArgs a = true → sanitize_arguments a = .ok a) := by
  refine ⟨?_, ?_, by decide, ?_, sanitize_arguments_of_clean⟩
  · have hk1 : ¬ (MAX_ARG_KEY_LENGTH < "key".length) := by decide
    have hk2 : validArgKey "key" = true := by decide
    rw [sanitize_arguments, if_neg hk1, hk2]
    simp only [Bool.not_true, Bool.false_eq_true, if_false]
    rw [show sanitizeValue "key" (ArgValue.str ⟨List.replicate 20000 'x'⟩)
        = .ok (ArgValue.str ⟨List.replicate 10000 'x'⟩) by
      simp only [sanitizeValue, sanitizeString_truncates_xs]]
    rfl
  · rw [sanitizeString_truncates_xs]
    exact List.length_replicate 10000 'x'
  · intro a b h
    exact sanitize_arguments_of_clean b (sanitize_arguments_ok_clean a b h)

/-- C6 witness: the idempotence clause applied to the concrete
    control-character example. -/
theorem c6_sanitize_arguments_witness :
    sanitize_arguments [("key", ArgValue.str "helloworldtest")]
      = .ok [("key", ArgValue.str "helloworldtest")] :=
  c6_sanitize_arguments.2.2.2.1
    [("key", ArgValue.str "hello\x00world\x1ftest")]
    [("key", ArgValue.str "helloworldtest")] (by decide)

/-- C10: every argument key without an alphanumeric character is rejected
    with a validation error — in particular the empty key and keys made
    only of the otherwise-allowed characters, such as `___`. -/
theorem c10_no_alnum_key_rejected :
    (∀ args k v, (k, v) ∈ args → (∀ c ∈ k.data, c.isAlphanum = false) →
      ∃ e, sanitize_arguments args = .error e) ∧
    sanitize_arguments [("", ArgValue.prim)] = .error (.keyInvalid "") ∧
    sanitize_arguments [("___", ArgValue.prim)] = .error (.keyInvalid "___") := by
  refine ⟨?_, by decide, by decide⟩
  intro args k v hmem hno
  cases hres : sanitize_arguments args with
  | error e => exact ⟨e, rfl⟩
  | ok r =>
    have hvalid := sanitize_arguments_ok_keys args r hres (k, v) hmem
    rw [validArgKey_no_alnum k hno] at hvalid
    cases hvalid

/-- C10 witness: the general clause applied to the key `___`. -/
theorem c10_no_alnum_key_rejected_witness :
    ∃ e, sanitize_arguments [("___", ArgValue.prim)] = .error e :=
  c10_no_alnum_key_rejected.1 [("___", ArgValue.prim)] "___" ArgValue.prim
    (by decide) (by decide)

/-- C5: dtype selection — on a CUDA device lacking bfloat16 support,
    `DTYPE=bfloat16` resolves to the model native precision unless that is
    float32, in which case float16; on mps, `DTYPE=auto` always resolves to
    float32 whatever the native precision; `DTYPE=float32` resolves to
    float32 on every device type. -/
theorem c5_dtype_selection :
    (∀ native, determineTorchDtype false native "bfloat16" "cuda"
      = if native = TorchDtype.float32 then TorchDtype.float16 else native) ∧
    (∀ support native,
      determineTorchDtype support native "auto" "mps" = TorchDtype.float32) ∧
    (∀ support native device,
      determineTorchDtype support native "float32" device = TorchDtype.float32) := by
  refine ⟨fun native => ?_, fun support native => ?_, fun support native device => ?_⟩
  · cases native <;> decide
  · cases support <;> cases native <;> decide
  · rfl

/-- C4 (counterexample): a request with `width=2049, height=2048` is
    rejected, but by the pydantic field bound `le=2048`, not by the
    "dimensions too large" check of `_validate_parameters`, contrary to
    the claim. -/
theorem c4_width2049_rejected_by_field_bound :
    validateGenerateImageRequest { prompt := "test", width := 2049, height := 2048 }
      = .error .fieldConstraint ∧
    (Except.error ParamReject.fieldConstraint : Except ParamReject Unit)
      ≠ .error .dimensionsTooLarge := by
  decide

/-- C4 (amended): `prompt="test", width=2048, height=2048` is accepted;
    `width=2049, height=2048` is rejected by the pydantic field bound
    (`le=2048`) rather than the dimensions-too-large validation error;
    `seed=-1` and `seed=2^32` are rejected, `seed=0` and `seed=2^32-1`
    accepted; a whitespace-only prompt is rejected with a validation
    error. -/
theorem c4_generate_image_validation :
    validateGenerateImageRequest { prompt := "test", width := 2048, height := 2048 }
      = .ok () ∧
    validateGenerateImageRequest { prompt := "test", width := 2049, height := 2048 }
      = .error .fieldConstraint ∧
    validateGenerateImageRequest { prompt := "test", seed := some (-1) }
      = .error .seedOutOfRange ∧
    validateGenerateImageRequest { prompt := "test", seed := some (2 ^ 32) }
      = .error .seedOutOfRange ∧
    validateGenerateImageRequest { prompt := "test", seed := some 0 } = .ok () ∧
    validateGenerateImageRequest { prompt := "test", seed := some (2 ^ 32 - 1) }
      = .ok () ∧
    validateGenerateImageRequest { prompt := "   " } = .error .emptyPrompt := by
  decide

/-- An attempt that succeeds returns its value with no further sleep. -/
theorem callToolFrom_success (exec : Nat → AttemptOutcome) (a : Nat) (v : String)
    (h : exec a = .success v) : callToolFrom exec a = (.ok v, []) := by
  rw [callToolFrom.eq_def, h]

/-- A timeout raises immediately. -/
theorem callToolFrom_timeout (exec : Nat → AttemptOutcome) (a : Nat)
    (h : exec a = .timeout) : callToolFrom exec a = (.timeoutError, []) := by
  rw [callToolFrom.eq_def, h]

/-- A validation error raises immediately. -/
theorem callToolFrom_validation (exec : Nat → AttemptOutcome) (a : Nat)
    (msg : String) (h : exec a = .failure .validation msg) :
    callToolFrom exec a = (.validationError, []) := by
  rw [callToolFrom.eq_def, h]

/-- A tool-not-found error raises immediately. -/
theorem callToolFrom_notFound (exec : Nat → AttemptOutcome) (a : Nat)
    (msg : String) (h : exec a = .failure .notFound msg) :
    callToolFrom exec a = (.notFoundError, []) := by
  rw [callToolFrom.eq_def, h]

/-- A connection-flavoured failure before the last attempt retries after a
    linearly increasing delay. -/
theorem callToolFrom_conn_retry (exec : Nat → AttemptOutcome) (a : Nat)
    (msg : String) (h : exec a = .failure .other msg)
    (hc : isConnectionMsg msg = true) (ha : a < MAX_RETRIES - 1) :
    callToolFrom exec a = ((callToolFrom exec (a + 1)).1,
      RETRY_DELAY_SECONDS * ((a : ℚ) + 1) :: (callToolFrom exec (a + 1)).2) := by
  rw [callToolFrom.eq_def, h]
  simp [hc, ha]

/-- A connection-flavoured failure on the last attempt raises the
    connection error. -/
theorem callToolFrom_conn_last (exec : Nat → AttemptOutcome) (a : Nat)
    (msg : String) (h : exec a = .failure .other msg)
    (hc : isConnectionMsg msg = true) (ha : ¬ a < MAX_RETRIES - 1) :
    callToolFrom exec a = (.connectionError msg, []) := by
  rw [callToolFrom.eq_def, h]
  simp [hc, ha]

/-- Any other failure before the last attempt retries after the flat
    delay. -/
theorem callToolFrom_other_retry (exec : Nat → AttemptOutcome) (a : Nat)
    (msg : String) (h : exec a = .failure .other msg)
    (hc : isConnectionMsg msg = false) (ha : a < MAX_RETRIES - 1) :
    callToolFrom exec a = ((callToolFrom exec (a + 1)).1,
      RETRY_DELAY_SECONDS :: (callToolFrom exec (a + 1)).2) := by
  rw [callToolFrom.eq_def, h]
  simp [hc, ha]

/-- Any other failure on the last attempt falls off the loop and raises
    the tool-execution error wrapping it. -/
theorem callToolFrom_other_last (exec : Nat → AttemptOutcome) (a : Nat)
    (msg : String) (h : exec a = .failure .other msg)
    (hc : isConnectionMsg msg = false) (ha : ¬ a < MAX_RETRIES - 1) :
    callToolFrom exec a = (.executionError msg, []) := by
  rw [callToolFrom.eq_def, h]
  simp [hc, ha]

/-- A retried failure leaves the final result to the later attempts. -/
theorem callToolFrom_retry_fst (exec : Nat → AttemptOutcome) (a : Nat)
    (msg : String) (h : exec a = .failure .other msg)
    (ha : a < MAX_RETRIES - 1) :
    (callToolFrom exec a).1 = (callToolFrom exec (a + 1)).1 := by
  cases hc : isConnectionMsg msg with
  | true => rw [callToolFrom_conn_retry exec a msg h hc ha]
  | false => rw [callToolFrom_other_retry exec a msg h hc ha]

/-- The loop from attempt `a` sleeps at most `MAX_RETRIES - 1 - a` more
    times. -/
theorem callToolFrom_len :
    ∀ (n : Nat) (exec : Nat → AttemptOutcome) (a : Nat),
      MAX_RETRIES - 1 - a ≤ n → (callToolFrom exec a).2.length ≤ n := by
  intro n
  induction n with
  | zero =>
    intro exec a h
    have h3 : MAX_RETRIES = 3 := rfl
    have ha : ¬ a < MAX_RETRIES - 1 := by omega
    cases hE : exec a with
    | success v => rw [callToolFrom_success exec a v hE]; simp
    | timeout => rw [callToolFrom_timeout exec a hE]; simp
    | failure kind msg =>
      cases kind with
      | validation => rw [callToolFrom_validation exec a msg hE]; simp
      | notFound => rw [callToolFrom_notFound exec a msg hE]; simp
      | other =>
        cases hc : isConnectionMsg msg with
        | true => rw [callToolFrom_conn_last exec a msg hE hc ha]; simp
        | false => rw [callToolFrom_other_last exec a msg hE hc ha]; simp
  | succ n ih =>
    intro exec a h
    cases hE : exec a with
    | success v => rw [callToolFrom_success exec a v hE]; simp
    | timeout => rw [callToolFrom_timeout exec a hE]; simp
    | failure kind msg =>
      cases kind with
      | validation => rw [callToolFrom_validation exec a msg hE]; simp
      | notFound => rw [callToolFrom_notFound exec a msg hE]; simp
      | other =>
        have h3 : MAX_RETRIES = 3 := rfl
        by_cases ha : a < MAX_RETRIES - 1
        · have hrec := ih exec (a + 1) (by omega)
          cases hc : isConnectionMsg msg with
          | true =>
            rw [callToolFrom_conn_retry exec a msg hE hc ha]
            simp only [List.length_cons]
            omega
          | false =>
            rw [callToolFrom_other_retry exec a msg hE hc ha]
            simp only [List.length_cons]
            omega
        · cases hc : isConnectionMsg msg with
          | true => rw [callToolFrom_conn_last exec a msg hE hc ha]; simp
          | false => rw [callToolFrom_other_last exec a msg hE hc ha]; simp

/-- C2: `call_tool` makes at most `MAX_RETRIES` attempts; a timeout on any
    attempt raises immediately with no retry; validation and not-found
    errors are never retried; three connection-flavoured failures raise a
    connection error after sleeps of 1 s then 2 s; three other failures
    raise a tool-execution error wrapping the last one after two flat 1 s
    sleeps; two failures followed by a success return the success value. -/
theorem c2_call_tool_retry :
    (∀ exec, (call_tool exec).2.length + 1 ≤ MAX_RETRIES) ∧
    (∀ exec a, exec a = .timeout → callToolFrom exec a = (.timeoutError, [])) ∧
    (∀ exec a msg, exec a = .failure .validation msg →
      callToolFrom exec a = (.validationError, [])) ∧
    (∀ exec a msg, exec a = .failure .notFound msg →
      callToolFrom exec a = (.notFoundError, [])) ∧
    (∀ exec m0 m1 m2,
      exec 0 = .failure .other m0 → exec 1 = .failure .other m1 →
      exec 2 = .failure .other m2 →
      isConnectionMsg m0 = true → isConnectionMsg m1 = true →
      isConnectionMsg m2 = true →
      call_tool exec = (.connectionError m2, [1, 2])) ∧
    (∀ exec m0 m1 m2,
      exec 0 = .failure .other m0 → exec 1 = .failure .other m1 →
      exec 2 = .failure .other m2 →
      isConnectionMsg m0 = false → isConnectionMsg m1 = false →
      isConnectionMsg m2 = false →
      call_tool exec = (.executionError m2, [1, 1])) ∧
    (∀ exec m0 m1 v,
      exec 0 = .failure .other m0 → exec 1 = .failure .other m1 →
      exec 2 = .success v → (call_tool exec).1 = .ok v) := by
  refine ⟨?_, callToolFrom_timeout, callToolFrom_validation, callToolFrom_notFound,
    ?_, ?_, ?_⟩
  · intro exec
    have h3 : MAX_RETRIES = 3 := rfl
    have := callToolFrom_len 2 exec 0 (by omega)
    rw [call_tool]
    omega
  · intro exec m0 m1 m2 h0 h1 h2 hc0 hc1 hc2
    rw [call_tool,
      callToolFrom_conn_retry exec 0 m0 h0 hc0 (by decide),
      callToolFrom_conn_retry exec 1 m1 h1 hc1 (by decide),
      callToolFrom_conn_last exec 2 m2 h2 hc2 (by decide)]
    norm_num [RETRY_DELAY_SECONDS]
  · intro exec m0 m1 m2 h0 h1 h2 hc0 hc1 hc2
    rw [call_tool,
      callToolFrom_other_retry exec 0 m0 h0 hc0 (by decide),
      callToolFrom_other_retry exec 1 m1 h1 hc1 (by decide),
      callToolFrom_other_last exec 2 m2 h2 hc2 (by decide)]
    norm_num [RETRY_DELAY_SECONDS]
  · intro exec m0 m1 v h0 h1 h2
    rw [call_tool,
      callToolFrom_retry_fst exec 0 m0 h0 (by decide),
      callToolFrom_retry_fst exec 1 m1 h1 (by decide),
      callToolFrom_success exec 2 v h2]

/-- C2 witness: the success-on-third-attempt clause applied to the example
    executor that fails twice and then succeeds. -/
theorem c2_call_tool_retry_witness : (call_tool egFlakyExec).1 = .ok "done" :=
  c2_call_tool_retry.2.2.2.2.2.2 egFlakyExec "boom" "boom" "done" rfl rfl rfl

/-- An attempt classified `done` returns or raises with no further
    attempt. -/
theorem makeRequestFrom_done (cfg : RetryConfig) (expected : Nat)
    (attempts : Nat → HttpAttempt) (lastExc : Option KResult) (a : Nat)
    (r : KResult) (h : stepOfAttempt expected (attempts a) = .done r) :
    makeRequestFrom cfg expected attempts lastExc a = (r, []) := by
  rw [makeRequestFrom.eq_def, h]

/-- A retriable failure before the last attempt sleeps
    `min(backoff^attempt, cap)` and continues with it recorded. -/
theorem makeRequestFrom_retry (cfg : RetryConfig) (expected : Nat)
    (attempts : Nat → HttpAttempt) (lastExc : Option KResult) (a : Nat)
    (e : KResult) (h : stepOfAttempt expected (attempts a) = .retryWith e)
    (ha : a < cfg.maxRetries) :
    makeRequestFrom cfg expected attempts lastExc a
      = ((makeRequestFrom cfg expected attempts (some e) (a + 1)).1,
        min (cfg.backoffFactor ^ a) cfg.maxRetryDelay
          :: (makeRequestFrom cfg expected attempts (some e) (a + 1)).2) := by
  rw [makeRequestFrom.eq_def, h]
  simp [ha]

/-- A retriable failure on the last attempt ends the loop and the last
    recorded exception is raised. -/
theorem makeRequestFrom_retry_last (cfg : RetryConfig) (expected : Nat)
    (attempts : Nat → HttpAttempt) (lastExc : Option KResult) (a : Nat)
    (e : KResult) (h : stepOfAttempt expected (attempts a) = .retryWith e)
    (ha : ¬ a < cfg.maxRetries) :
    makeRequestFrom cfg expected attempts lastExc a = (e, []) := by
  rw [makeRequestFrom.eq_def, h]
  simp [ha, finalRaise]

/-- C3 (behaviour at the failing input and around it): a 400 response with
    a parseable `{error, code, details}` body raises the raw-status
    inference error — not the structured one, which the inner
    `except Exception` swallows — without retrying; 404 and 429 raise
    without retrying; connection failures are retried with delays
    `min(2^n, 60)` and the last wrapped error is raised after the budget
    is exhausted; two timeouts followed by a 200 return the response after
    delays of 1 s and 2 s. -/
theorem c3_kserve_retry_behaviour :
    make_request_with_retry {} 200 (fun _ => .response 400
        (some { error := "bad prompt", code := some "INVALID_INPUT",
                details := some "prompt too long" }) "raw body")
      = (.inferenceRaw 400 "raw body", []) ∧
    (∀ e, KResult.inferenceRaw 400 "raw body" ≠ .inferenceStructured e) ∧
    make_request_with_retry {} 200 (fun _ => .response 404 none "")
      = (.modelNotReady, []) ∧
    make_request_with_retry {} 200 (fun _ => .response 429 none "")
      = (.rateLimit, []) ∧
    make_request_with_retry {} 200 (fun _ => .connectError "refused")
      = (.connErr "refused", [1, 2, 4]) ∧
    make_request_with_retry {} 200
        (fun n => if n < 2 then .timeoutErr "slow" else .response 200 none "")
      = (.ok 200, [1, 2]) := by
  refine ⟨?_, ?_, ?_, ?_, ?_, ?_⟩
  · exact makeRequestFrom_done _ _ _ _ _ _ rfl
  · intro e h
    exact KResult.noConfusion h
  · exact makeRequestFrom_done _ _ _ _ _ _ rfl
  · exact makeRequestFrom_done _ _ _ _ _ _ rfl
  · rw [make_request_with_retry,
      makeRequestFrom_retry {} 200 (fun _ => .connectError "refused") none 0
        (.connErr "refused") rfl (by decide),
      makeRequestFrom_retry {} 200 (fun _ => .connectError "refused")
        (some (.connErr "refused")) 1 (.connErr "refused") rfl (by decide),
      makeRequestFrom_retry {} 200 (fun _ => .connectError "refused")
        (some (.connErr "refused")) 2 (.connErr "refused") rfl (by decide),
      makeRequestFrom_retry_last {} 200 (fun _ => .connectError "refused")
        (some (.connErr "refused")) 3 (.connErr "refused") rfl (by decide)]
    norm_num [min_def]
  · rw [make_request_with_retry,
      makeRequestFrom_retry {} 200
        (fun n => if n < 2 then .timeoutErr "slow" else .response 200 none "")
        none 0 (.timedOut "slow") rfl (by decide),
      makeRequestFrom_retry {} 200
        (fun n => if n < 2 then .timeoutErr "slow" else .response 200 none "")
        (some (.timedOut "slow")) 1 (.timedOut "slow") rfl (by decide),
      makeRequestFrom_done {} 200
        (fun n => if n < 2 then .timeoutErr "slow" else .response 200 none "")
        (some (.timedOut "slow")) 2 (.ok 200) rfl]
    norm_num [min_def]

/-- The unit loop stops as soon as the running value drops below 1024. -/
theorem sizeLoop_of_lt (s : ℚ) (i : Nat) (h : s < 1024) :
    sizeLoop s i = (s, i) := by
  rw [sizeLoop.eq_def, dif_neg]
  intro hc
  exact absurd hc.1 (not_le.mpr h)

/-- The unit loop stops at unit index 3 (GB) whatever the value. -/
theorem sizeLoop_idx3 (s : ℚ) : sizeLoop s 3 = (s, 3) := by
  rw [sizeLoop.eq_def, dif_neg]
  intro hc
  exact absurd hc.2 (by omega)

/-- One iteration of the unit loop. -/
theorem sizeLoop_step (s : ℚ) (i : Nat) (h1 : 1024 ≤ s) (h2 : i < 3) :
    sizeLoop s i = sizeLoop (s / 1024) (i + 1) := by
  rw [sizeLoop.eq_def, dif_pos ⟨h1, h2⟩]

/-- The unit index never exceeds 3 (GB). -/
theorem sizeLoop_idx_le :
    ∀ (fuel : Nat) (s : ℚ) (i : Nat), 3 - i ≤ fuel → i ≤ 3 →
      (sizeLoop s i).2 ≤ 3 := by
  intro fuel
  induction fuel with
  | zero =>
    intro s i h1 h2
    have h3 : i = 3 := by omega
    subst h3
    rw [sizeLoop_idx3]
  | succ fuel ih =>
    intro s i h1 h2
    rw [sizeLoop.eq_def]
    split
    · next hc =>
      obtain ⟨_, hi⟩ := hc
      exact ih (s / 1024) (i + 1) (by omega) (by omega)
    · exact h2

/-- C9: `format_file_size` returns `"0 B"` for zero; an integer rendering
    with unit `B` for positive sizes below 1024; a one-decimal rendering
    in `KB`, `MB` or `GB` (the value divided by the matching power of
    1024, staying below 1024 except in `GB`) for sizes of 1024 and above;
    and the unit index never passes `GB` for any input. -/
theorem c9_format_file_size :
    format_file_size 0 = "0 B" ∧
    (∀ n : Nat, 0 < n → n < 1024 →
      format_file_size n = toString (n : ℤ) ++ " B") ∧
    (∀ n : Nat, 1024 ≤ n → ∃ k, 1 ≤ k ∧ k ≤ 3 ∧
      format_file_size n
        = pyFormat1f ((n : ℚ) / 1024 ^ k) ++ " " ++ fileSizeUnits.getD k "" ∧
      (k < 3 → (n : ℚ) / 1024 ^ k < 1024)) ∧
    (∀ n : Nat, (sizeLoop (n : ℚ) 0).2 ≤ 3) := by
  refine ⟨rfl, ?_, ?_, fun n => sizeLoop_idx_le 3 (n : ℚ) 0 (by omega) (by omega)⟩
  · intro n h0 h1
    have hlt : (n : ℚ) < 1024 := by exact_mod_cast h1
    have hf : ((n : ℚ)).floor = (n : ℤ) := by
      rw [show ((n : ℚ)).floor = ⌊(n : ℚ)⌋ from rfl, Int.floor_natCast]
    rw [format_file_size, if_neg (by omega)]
    simp only [sizeLoop_of_lt (n : ℚ) 0 hlt, hf]
    norm_num [fileSizeUnits]
    rw [String.append_assoc]
    rfl
  · intro n hn
    have hge : (1024 : ℚ) ≤ (n : ℚ) := by exact_mod_cast hn
    have hpos : (0 : ℚ) < 1024 := by norm_num
    by_cases hb2 : n < 1024 ^ 2
    · refine ⟨1, by omega, by omega, ?_, ?_⟩
      · have hlt : (n : ℚ) / 1024 < 1024 := by
          rw [div_lt_iff₀ hpos]
          exact_mod_cast hb2
        rw [format_file_size, if_neg (by omega)]
        simp only [sizeLoop_step (n : ℚ) 0 hge (by omega), Nat.reduceAdd,
          sizeLoop_of_lt ((n : ℚ) / 1024) 1 hlt]
        norm_num
      · intro _
        rw [pow_one, div_lt_iff₀ hpos]
        exact_mod_cast hb2
    · by_cases hb3 : n < 1024 ^ 3
      · refine ⟨2, by omega, by omega, ?_, ?_⟩
        · have hge2 : (1024 : ℚ) ≤ (n : ℚ) / 1024 := by
            rw [le_div_iff₀ hpos]
            exact_mod_cast (by omega : 1024 * 1024 ≤ n)
          have hcast3 : (n : ℚ) < 1024 ^ 3 := by exact_mod_cast hb3
          have hlt2 : (n : ℚ) / 1024 / 1024 < 1024 := by
            rw [div_div, div_lt_iff₀ (by norm_num : (0 : ℚ) < 1024 * 1024)]
            calc (n : ℚ) < 1024 ^ 3 := hcast3
              _ = 1024 * (1024 * 1024) := by ring
          rw [format_file_size, if_neg (by omega)]
          simp only [sizeLoop_step (n : ℚ) 0 hge (by omega), Nat.reduceAdd,
            sizeLoop_step ((n : ℚ) / 1024) 1 hge2 (by omega),
            sizeLoop_of_lt ((n : ℚ) / 1024 / 1024) 2 hlt2]
          rw [div_div]
          norm_num
        · intro _
          rw [div_lt_iff₀ (by positivity)]
          calc (n : ℚ) < 1024 ^ 3 := by exact_mod_cast hb3
            _ = 1024 * 1024 ^ 2 := by ring
      · refine ⟨3, by omega, by omega, ?_, fun h => absurd h (by omega)⟩
        have hge2 : (1024 : ℚ) ≤ (n : ℚ) / 1024 := by
          rw [le_div_iff₀ hpos]
          exact_mod_cast (by omega : 1024 * 1024 ≤ n)
        have hge3 : (1024 : ℚ) ≤ (n : ℚ) / 1024 / 1024 := by
          rw [div_div, le_div_iff₀ (by norm_num : (0 : ℚ) < 1024 * 1024)]
          exact_mod_cast (by omega : 1024 * (1024 * 1024) ≤ n)
        rw [format_file_size, if_neg (by omega)]
        simp only [sizeLoop_step (n : ℚ) 0 hge (by omega), Nat.reduceAdd,
          sizeLoop_step ((n : ℚ) / 1024) 1 hge2 (by omega),
          sizeLoop_step ((n : ℚ) / 1024 / 1024) 2 hge3 (by omega),
          sizeLoop_idx3]
        rw [div_div, div_div]
        norm_num

/-- C9 witness: the integer-`B` clause applied at 500 bytes. -/
theorem c9_format_file_size_witness :
    format_file_size 500 = toString ((500 : Nat) : ℤ) ++ " B" :=
  c9_format_file_size.2.1 500 (by norm_num) (by norm_num)

/-- Looking up a freshly written file finds its content. -/
theorem alookup_ainsert_self {α : Type} (k : String) (v : α)
    (l : List (String × α)) : alookup k (ainsert k v l) = some v := by
  simp [ainsert, alookup]

/-- A deleted file is gone. -/
theorem alookup_aerase_self {α : Type} (k : String) (l : List (String × α)) :
    alookup k (aerase k l) = none := by
  induction l with
  | nil => rfl
  | cons p rest ih =>
    by_cases hpk : p.1 = k
    · simpa [aerase, List.filter_cons, hpk] using ih
    · simpa [aerase, List.filter_cons, alookup, hpk] using ih

/-- Deleting one file leaves the others untouched. -/
theorem alookup_aerase_ne {α : Type} (k k2 : String) (l : List (String × α))
    (h : k2 ≠ k) : alookup k2 (aerase k l) = alookup k2 l := by
  induction l with
  | nil => rfl
  | cons p rest ih =>
    by_cases hpk : p.1 = k
    · have h1 : aerase k (p :: rest) = aerase k rest := by
        simp [aerase, List.filter_cons, hpk]
      have h2 : alookup k2 (p :: rest) = alookup k2 rest := by
        simp [alookup, show p.1 ≠ k2 from by rw [hpk]; exact fun hx => h hx.symm]
      rw [h1, h2]
      exact ih
    · have h1 : aerase k (p :: rest) = p :: aerase k rest := by
        simp [aerase, List.filter_cons, hpk]
      rw [h1]
      by_cases hp2 : p.1 = k2
      · simp [alookup, hp2]
      · simp [alookup, hp2, ih]

/-- Membership after deletion. -/
theorem mem_aerase {α : Type} (p : String × α) (k : String)
    (l : List (String × α)) (h : p ∈ aerase k l) : p ∈ l ∧ p.1 ≠ k := by
  have hm := List.mem_filter.mp h
  exact ⟨hm.1, by simpa using hm.2⟩

/-- C1: saving a non-empty image under a fresh id, in any storage state
    with consistent metadata, lets `get_image` return exactly the saved
    bytes; `list_images` then holds exactly one record with that image id;
    `delete_image` returns true and removes it, a repeated `get_image`
    finds nothing, a second `delete_image` returns false; and saving empty
    bytes always fails with a storage error from any state, creating
    nothing. -/
theorem c1_file_storage_roundtrip (st : FSState) (B : Bytes) (I : String)
    (meta : List (String × String)) (now : String)
    (hB : B ≠ []) (hcons : metaConsistent st) :
    ∃ st1 : FSState,
      save_image st B I meta now = .ok (I ++ ".png", st1) ∧
      get_image st1 I = some B ∧
      ((list_images st1).filter (fun r => r.meta.image_id == I)).length = 1 ∧
      (delete_image st1 I).1 = true ∧
      get_image (delete_image st1 I).2 I = none ∧
      (delete_image (delete_image st1 I).2 I).1 = false ∧
      ∀ st0 : FSState, save_image st0 [] I meta now = .error (.emptyImageData I) := by
  cases B with
  | nil => exact absurd rfl hB
  | cons b bs =>
    refine ⟨⟨ainsert I (b :: bs) st.pngs,
      ainsert I ⟨meta, I, now, (b :: bs).length, "png"⟩ st.jsons⟩,
      rfl, alookup_ainsert_self I (b :: bs) st.pngs, ?_, ?_, ?_, ?_, fun st0 => rfl⟩
    · rw [list_images]
      rw [show (⟨ainsert I (b :: bs) st.pngs,
        ainsert I ⟨meta, I, now, (b :: bs).length, "png"⟩ st.jsons⟩ : FSState).jsons
          = (I, (⟨meta, I, now, (b :: bs).length, "png"⟩ : FullMetadata))
            :: aerase I st.jsons from rfl]
      rw [List.filterMap_cons]
      simp only [listRecordOf, alookup_ainsert_self]
      rw [List.filter_cons_of_pos (by simp)]
      have htail : (List.filterMap
          (listRecordOf (ainsert I (b :: bs) st.pngs)) (aerase I st.jsons)).filter
            (fun r => r.meta.image_id == I) = [] := by
        rw [List.filter_eq_nil_iff]
        intro r hr
        obtain ⟨p, hp, hfp⟩ := List.mem_filterMap.mp hr
        obtain ⟨hpl, hpne⟩ := mem_aerase p I st.jsons hp
        rw [listRecordOf] at hfp
        cases hlk : alookup p.1 (ainsert I (b :: bs) st.pngs) with
        | none => rw [hlk] at hfp; simp at hfp
        | some d =>
          rw [hlk] at hfp
          simp only [Option.some.injEq] at hfp
          rw [← hfp]
          simp [hcons p hpl, hpne]
      rw [htail]
      rfl
    · simp [delete_image, alookup_ainsert_self]
    · exact alookup_aerase_self I _
    · simp [delete_image, alookup_aerase_self]

/-- C1 witness: the round trip on the empty storage with a four-byte PNG
    header. -/
theorem c1_file_storage_roundtrip_witness :
    ∃ st1 : FSState,
      save_image ⟨[], []⟩ [137, 80, 78, 71] "img-1" [("prompt", "cat")] "t0"
        = .ok ("img-1" ++ ".png", st1) ∧
      get_image st1 "img-1" = some [137, 80, 78, 71] ∧
      ((list_images st1).filter (fun r => r.meta.image_id == "img-1")).length = 1 ∧
      (delete_image st1 "img-1").1 = true ∧
      get_image (delete_image st1 "img-1").2 "img-1" = none ∧
      (delete_image (delete_image st1 "img-1").2 "img-1").1 = false ∧
      ∀ st0 : FSState, save_image st0 [] "img-1" [("prompt", "cat")] "t0"
        = .error (.emptyImageData "img-1") :=
  c1_file_storage_roundtrip ⟨[], []⟩ [137, 80, 78, 71] "img-1"
    [("prompt", "cat")] "t0" (by decide) (fun p hp => absurd hp (by simp))

/-- C7: with no chat provider configured, every non-streaming completion
    returns status 200 with text `"Echo: " + M` followed by the fixed
    notice, sender `"bot"`, and usage counts equal to the whitespace word
    counts of the request message and of the response text. -/
theorem c7_echo_mode_response (M : String) :
    (handle_non_streaming_chat .unavailable M).1 = 200 ∧
    (handle_non_streaming_chat .unavailable M).2.message.text
      = "Echo: " ++ M ++ "\n\n" ++ llmNotice ∧
    (handle_non_streaming_chat .unavailable M).2.message.sender = "bot" ∧
    (handle_non_streaming_chat .unavailable M).2.usage.prompt_tokens = wordCount M ∧
    (handle_non_streaming_chat .unavailable M).2.usage.completion_tokens
      = wordCount ((handle_non_streaming_chat .unavailable M).2.message.text) ∧
    (handle_non_streaming_chat .unavailable M).2.usage.total_tokens
      = wordCount M
        + wordCount ((handle_non_streaming_chat .unavailable M).2.message.text) :=
  ⟨rfl, rfl, rfl, rfl, rfl, rfl⟩
